import Mathlib

/-
Verification of the webhook delivery dispatch engine
(saleor/plugins/webhook/tasks.py).

The Python source is shallowly embedded below.  External collaborators
(the HTTP client, the queue clients, the JSON parser, the database) are
modelled as explicit inputs to the embedded functions: every embedded
function is a pure function from the program state it reads plus the
behaviour of the external world to the observable effects it produces
(records written, statuses stored, retries scheduled, values returned).

Python string primitives used by the source (str.lower, str.split,
str.endswith, truthiness of optional strings) are modelled on the
character list of the Lean String so that all definitions evaluate
inside the kernel.
-/

/-- Model of Python str.lower (used on URL schemes, all ASCII here). -/
def py_lower (s : String) : String :=
  String.mk (s.data.map Char.toLower)

/-- Splitting a character list on a separator character; models
Python str.split with a one-character separator. -/
def splitOnChar (sep : Char) : List Char → List (List Char)
  | [] => [[]]
  | c :: cs =>
    let r := splitOnChar sep cs
    if c = sep then [] :: r
    else
      match r with
      | [] => [[c]]
      | g :: gs => (c :: g) :: gs

/-- Model of Python str.split with a one-character separator. -/
def py_split (s : String) (sep : Char) : List String :=
  (splitOnChar sep s.data).map (fun l => String.mk l)

/-- Model of Python str.endswith. -/
def py_endswith (s suffix : String) : Bool :=
  suffix.data.isSuffixOf s.data

/-- Model of Python truthiness of an optional string field
(None and the empty string are falsy). -/
def py_truthy_str : Option String → Bool
  | none => false
  | some s => !s.isEmpty

/-- EventDeliveryStatus from saleor.core: PENDING, SUCCESS, FAILED. -/
inductive EventDeliveryStatus
  | pending
  | success
  | failed
deriving DecidableEq, Repr

/-- The WebhookResponse dataclass of tasks.py.  Durations are modelled
as Nat (they play no role in any claim); header dictionaries as
association lists. -/
structure WebhookResponse where
  content : String
  request_headers : Option (List (String × String)) := none
  response_headers : Option (List (String × String)) := none
  response_status_code : Option Nat := none
  status : EventDeliveryStatus := EventDeliveryStatus.success
  duration : Nat := 0
deriving DecidableEq, Repr

/-- The Webhook model fields read by tasks.py.  The URL scheme is stored
pre-parsed: the source obtains it with the standard-library urlparse,
which is external to the repository. -/
structure Webhook where
  is_active : Bool
  target_scheme : String
  secret_key : String
  subscription_query : Option String
deriving DecidableEq, Repr

/-- The EventDelivery model fields read by tasks.py.  The payload
relation is inlined as the payload text. -/
structure EventDelivery where
  status : EventDeliveryStatus
  event_type : String
  payload : String
  webhook : Webhook
deriving DecidableEq, Repr

/-- An HTTP response as seen through the requests library: final status
code, body text, headers, elapsed time. -/
structure HttpResponse where
  status_code : Nat
  text : String
  headers : List (String × String)
  elapsed_seconds : Nat
deriving DecidableEq, Repr

/-- The ok property of a requests Response: true when the status code is
below 400. -/
def response_ok (r : HttpResponse) : Bool :=
  r.status_code < 400

/-- The request headers built by send_webhook_using_http. -/
def webhook_http_headers (event_type domain signature : String) : List (String × String) :=
  [("Content-Type", "application/json"),
   ("X-Saleor-Event", event_type),
   ("X-Saleor-Domain", domain),
   ("X-Saleor-Signature", signature),
   ("Saleor-Event", event_type),
   ("Saleor-Domain", domain),
   ("Saleor-Signature", signature)]

/-- Embedding of send_webhook_using_http.  The POST itself is external;
the function maps the response the remote produced to the
WebhookResponse the adapter returns: status SUCCESS exactly when the
response is ok, body captured as content. -/
def send_webhook_using_http (target_url : String) (message : String)
    (domain signature event_type : String) (response : HttpResponse) : WebhookResponse :=
  { content := response.text,
    request_headers := some (webhook_http_headers event_type domain signature),
    response_headers := some response.headers,
    response_status_code := some response.status_code,
    duration := response.elapsed_seconds,
    status := if response_ok response then EventDeliveryStatus.success
              else EventDeliveryStatus.failed }

/-- The components of urlparse(target_url) read by the SQS adapter.
The parse itself is the standard library. -/
structure ParsedUrl where
  scheme : String
  username : String
  password : String
  hostname : String
  path : String
deriving DecidableEq, Repr

/-- The send_message request the SQS adapter hands to the queue client:
region and credentials for the client, then the keyword arguments of
send_message.  Message attributes are flattened to (name, value) pairs. -/
structure SqsSendRequest where
  region_name : String
  aws_access_key_id : String
  aws_secret_access_key : String
  queue_url : String
  message_attributes : List (String × String)
  message_group_id : Option String
  message_body : String
deriving DecidableEq, Repr

/-- The region computation of send_webhook_using_aws_sqs: us-east-1
unless the hostname splits into exactly four dot-separated labels with
head sqs, in which case the second label is the region. -/
def sqs_region (hostname_parts : List String) : String :=
  match hostname_parts with
  | [p0, p1, _, _] => if p0 = "sqs" then p1 else "us-east-1"
  | _ => "us-east-1"

/-- Embedding of send_webhook_using_aws_sqs up to the send_message call:
the request it builds from the parsed target URL, the message and the
metadata. -/
def send_webhook_using_aws_sqs (parts : ParsedUrl) (message : String)
    (domain signature event_type : String) : SqsSendRequest :=
  let hostname_parts := py_split parts.hostname '.'
  let region := sqs_region hostname_parts
  let queue_url := "https://" ++ parts.hostname ++ parts.path
  let is_fifo := py_endswith parts.path ".fifo"
  let msg_attributes :=
    [("SaleorDomain", domain), ("EventType", event_type)]
      ++ (if signature.isEmpty then [] else [("Signature", signature)])
  { region_name := region,
    aws_access_key_id := parts.username,
    aws_secret_access_key := parts.password,
    queue_url := queue_url,
    message_attributes := msg_attributes,
    message_group_id := if is_fifo then some domain else none,
    message_body := message }

/-- The exception classes handled by the dispatch code, abstracted to
their class: RequestException (requests), ClientError (botocore),
MessageTooLargeError and RuntimeError (google pubsub publisher), and
any other exception class. -/
inductive ExcKind
  | requestException
  | clientError
  | messageTooLargeError
  | runtimeError
  | otherExc
deriving DecidableEq, Repr

/-- The behaviour of one transport call: either the adapter produced a
WebhookResponse, or the transport library raised an exception of some
class with some description. -/
inductive AdapterOutcome
  | ok (r : WebhookResponse)
  | raised (e : ExcKind) (msg : String)
deriving DecidableEq, Repr

/-- What the dispatch router does as observed by its caller: return a
WebhookResponse, raise ValueError for an unknown scheme, or let an
uncaught adapter exception propagate. -/
inductive RouterResult
  | delivered (r : WebhookResponse)
  | valueError (msg : String)
  | uncaught (e : ExcKind) (msg : String)
deriving DecidableEq, Repr

/-- The scheme_matrix of send_webhook_using_scheme_method, reduced to
the data the embedding needs: for a known scheme, the tuple of caught
exception classes; for any other scheme, none. -/
def scheme_matrix_lookup (s : String) : Option (List ExcKind) :=
  if s = "http" then some [ExcKind.requestException]
  else if s = "https" then some [ExcKind.requestException]
  else if s = "awssqs" then some [ExcKind.clientError]
  else if s = "gcpubsub" then some [ExcKind.messageTooLargeError, ExcKind.runtimeError]
  else none

/-- Embedding of send_webhook_using_scheme_method.  The scheme is the
urlparse result of the target URL; the adapter call itself is external
and enters as an AdapterOutcome.  A known scheme whose adapter raises a
caught exception class yields a FAILED WebhookResponse whose content is
the exception text; a raised class outside the caught tuple propagates;
an unknown scheme raises ValueError. -/
def send_webhook_using_scheme_method (target_scheme : String)
    (outcome : AdapterOutcome) : RouterResult :=
  match scheme_matrix_lookup (py_lower target_scheme) with
  | some caught =>
    match outcome with
    | AdapterOutcome.ok r => RouterResult.delivered r
    | AdapterOutcome.raised e msg =>
      if caught.contains e then
        RouterResult.delivered { content := msg, status := EventDeliveryStatus.failed }
      else
        RouterResult.uncaught e msg
  | none =>
    RouterResult.valueError ("Unknown webhook scheme: " ++ target_scheme)

/-- Celery task configuration of send_webhook_request_async:
retry_backoff. -/
def retry_backoff : Nat := 10

/-- Celery task configuration of send_webhook_request_async:
max_retries from retry_kwargs. -/
def max_retries : Nat := 5

/-- The observable effects of one invocation of the async task:
the status written to the EventDelivery (none when no delivery_update
runs), how many DeliveryAttempt rows were created, the response stored
on the attempt by attempt_update (none when the attempt result was
never filled in), the countdown of a scheduled retry (none when no
retry was scheduled), and whether an exception escaped the task. -/
structure AsyncStepResult where
  status_written : Option EventDeliveryStatus
  attempts_created : Nat
  attempt_response : Option WebhookResponse
  retry_countdown : Option Nat
  exception_escaped : Bool
deriving DecidableEq, Repr

/-- Embedding of one invocation of send_webhook_request_async.
Inputs: the EventDelivery row the identifier resolves to (none models
DoesNotExist), the retries counter of the celery request, and the
behaviour of the transport call.  Mirrors the source: missing row
terminates silently; an inactive webhook writes FAILED with no attempt;
otherwise an attempt is created and the router is called; a FAILED
response schedules a retry with countdown retry_backoff * 2 ^ retries
while budget remains (celery Retry escapes, so no status is written),
writes FAILED once the budget is exhausted, and any other response
status writes SUCCESS; a ValueError from the router is recorded as a
synthetic FAILED attempt result and the delivery is FAILED with no
retry; an uncaught adapter exception escapes after the attempt row was
created but before its result was filled in. -/
def send_webhook_request_async (delivery : Option EventDelivery)
    (retries : Nat) (outcome : AdapterOutcome) : AsyncStepResult :=
  match delivery with
  | none =>
    { status_written := none, attempts_created := 0, attempt_response := none,
      retry_countdown := none, exception_escaped := false }
  | some d =>
    if !d.webhook.is_active then
      { status_written := some EventDeliveryStatus.failed, attempts_created := 0,
        attempt_response := none, retry_countdown := none, exception_escaped := false }
    else
      match send_webhook_using_scheme_method d.webhook.target_scheme outcome with
      | RouterResult.delivered r =>
        if r.status = EventDeliveryStatus.failed then
          if retries < max_retries then
            { status_written := none, attempts_created := 1, attempt_response := some r,
              retry_countdown := some (retry_backoff * 2 ^ retries),
              exception_escaped := false }
          else
            { status_written := some EventDeliveryStatus.failed, attempts_created := 1,
              attempt_response := some r, retry_countdown := none,
              exception_escaped := false }
        else
          { status_written := some EventDeliveryStatus.success, attempts_created := 1,
            attempt_response := some r, retry_countdown := none,
            exception_escaped := false }
      | RouterResult.valueError msg =>
        { status_written := some EventDeliveryStatus.failed, attempts_created := 1,
          attempt_response := some { content := msg, status := EventDeliveryStatus.failed },
          retry_countdown := none, exception_escaped := false }
      | RouterResult.uncaught _ _ =>
        { status_written := none, attempts_created := 1, attempt_response := none,
          retry_countdown := none, exception_escaped := true }

/-- Repeated invocation of the async task on one delivery under a fixed
transport behaviour, following the scheduled retries: returns the total
number of DeliveryAttempt rows created, the list of retry countdowns in
order, and the final status written.  Fuel bounds the recursion. -/
def drive (d : EventDelivery) (outcome : AdapterOutcome) :
    Nat → Nat → Nat × List Nat × Option EventDeliveryStatus
  | 0, _ => (0, [], none)
  | fuel + 1, retries =>
    let r := send_webhook_request_async (some d) retries outcome
    match r.retry_countdown with
    | some c =>
      let rest := drive d outcome fuel (retries + 1)
      (r.attempts_created + rest.1, c :: rest.2.1, rest.2.2)
    | none => (r.attempts_created, [], r.status_written)

/-- The behaviour of the single HTTP call of the sync path: either the
remote produced a response (with the result of parsing its body as
JSON, none modelling a JSONDecodeError, the parsed document abstracted
to text), or the requests library raised a RequestException carrying an
optional error response. -/
inductive HttpOutcome
  | response (r : HttpResponse) (parsed : Option String)
  | requestError (msg : String) (err_response : Option HttpResponse)
deriving DecidableEq, Repr

/-- The observable effects of one invocation of
send_webhook_request_sync: the status written to the delivery, the
number of DeliveryAttempt rows created, the value returned to the
caller, and whether the unknown-scheme ValueError was raised. -/
structure SyncStepResult where
  status_written : Option EventDeliveryStatus
  attempts_created : Nat
  returned : Option String
  raised_value_error : Bool
deriving DecidableEq, Repr

/-- Embedding of send_webhook_request_sync.  Mirrors the source: a
scheme other than http or https (lower-cased) writes FAILED and raises
ValueError before any attempt is created; otherwise one attempt is
created and the HTTP adapter is invoked; a RequestException or a JSON
parse failure leaves the delivery FAILED with no return value; a parsed
body yields the adapter status, and the parsed document is returned
exactly when that status is SUCCESS. -/
def send_webhook_request_sync (target_scheme : String)
    (outcome : HttpOutcome) : SyncStepResult :=
  if py_lower target_scheme ∉ (["http", "https"] : List String) then
    { status_written := some EventDeliveryStatus.failed, attempts_created := 0,
      returned := none, raised_value_error := true }
  else
    match outcome with
    | HttpOutcome.response r parsed =>
      let resp_status :=
        if response_ok r then EventDeliveryStatus.success else EventDeliveryStatus.failed
      match parsed with
      | none =>
        { status_written := some EventDeliveryStatus.failed, attempts_created := 1,
          returned := none, raised_value_error := false }
      | some v =>
        { status_written := some resp_status, attempts_created := 1,
          returned := if resp_status = EventDeliveryStatus.success then some v else none,
          raised_value_error := false }
    | HttpOutcome.requestError _ _ =>
      { status_written := some EventDeliveryStatus.failed, attempts_created := 1,
        returned := none, raised_value_error := false }

/-- An EventDelivery row as created by the fan-out trigger.  Payload
identity is modelled by an index into the list of EventPayload rows the
same trigger call creates, so that payload sharing is observable. -/
structure MEventDelivery where
  status : EventDeliveryStatus
  event_type : String
  payload_id : Nat
  webhook : Webhook
deriving DecidableEq, Repr

/-- Embedding of group_webhooks_by_subscription: webhooks with a truthy
subscription_query are subscription webhooks, the rest are regular. -/
def group_webhooks_by_subscription (webhooks : List Webhook) :
    List Webhook × List Webhook :=
  let subscription := webhooks.filter (fun w => py_truthy_str w.subscription_query)
  let regular := webhooks.filter (fun w => !py_truthy_str w.subscription_query)
  (regular, subscription)

/-- Modelled from the spec: create_event_delivery_list_for_webhooks
lives in saleor/plugins/webhook/utils.py, which is not among the
sources.  The spec for the raw branch of the fan-out says to create one
EventDelivery per endpoint in the given list, each referencing the one
shared EventPayload, with status PENDING. -/
def create_event_delivery_list_for_webhooks (webhooks : List Webhook)
    (event_payload_id : Nat) (event_type : String) : List MEventDelivery :=
  webhooks.map (fun w =>
    { status := EventDeliveryStatus.pending, event_type := event_type,
      payload_id := event_payload_id, webhook := w })

/-- Embedding of create_deliveries_for_subscriptions.  The subscribable
event registry and the subscription payload renderer are external and
enter as functions; a renderer result of none models falsy data (the
endpoint is skipped).  Returns the EventPayload rows created (their ids
start at first_payload_id) and the EventDelivery rows created. -/
def create_deliveries_for_subscriptions (subscribable : String → Bool)
    (render : Webhook → Option String) (event_type : String)
    (webhooks : List Webhook) (first_payload_id : Nat) :
    List String × List MEventDelivery :=
  if !subscribable event_type then ([], [])
  else
    let rendered := webhooks.filterMap (fun w => (render w).map (fun d => (d, w)))
    (rendered.map (fun p => p.1),
     rendered.enum.map (fun p =>
       { status := EventDeliveryStatus.pending, event_type := event_type,
         payload_id := first_payload_id + p.1, webhook := p.2.2 }))

/-- Embedding of trigger_webhooks_async up to the task submissions:
the EventPayload rows (as their payload texts, ids being list
positions) and the EventDelivery rows the call creates.  Mirrors the
source exactly: when the regular group is nonempty, one shared payload
is created from the data and create_event_delivery_list_for_webhooks is
called with the FULL webhook list (the source passes webhooks, not
regular_webhooks); when the subscription group is nonempty,
create_deliveries_for_subscriptions runs on it. -/
def trigger_webhooks_async (data : String) (event_type : String)
    (webhooks : List Webhook) (subscribable : String → Bool)
    (render : Webhook → Option String) : List String × List MEventDelivery :=
  let grouped := group_webhooks_by_subscription webhooks
  let regular_webhooks := grouped.1
  let subscription_webhooks := grouped.2
  let raw : List String × List MEventDelivery :=
    if regular_webhooks.isEmpty then ([], [])
    else ([data], create_event_delivery_list_for_webhooks webhooks 0 event_type)
  let sub : List String × List MEventDelivery :=
    if subscription_webhooks.isEmpty then ([], [])
    else create_deliveries_for_subscriptions subscribable render event_type
           subscription_webhooks raw.1.length
  (raw.1 ++ sub.1, raw.2 ++ sub.2)

/-- Helper: a scheme outside the four supported ones has no entry in the
scheme matrix. -/
theorem scheme_matrix_lookup_eq_none (s : String)
    (h : s ∉ (["http", "https", "awssqs", "gcpubsub"] : List String)) :
    scheme_matrix_lookup s = none := by
  simp only [List.mem_cons, List.not_mem_nil, or_false, not_or] at h
  obtain ⟨h1, h2, h3, h4⟩ := h
  simp [scheme_matrix_lookup, h1, h2, h3, h4]

/-- Helper: one async invocation on an active webhook whose router call
returns a FAILED response either schedules a retry with countdown
retry_backoff * 2 ^ retries (leaving the delivery status unwritten) or,
once the budget is exhausted, writes FAILED. -/
theorem async_step_failed (d : EventDelivery) (outcome : AdapterOutcome)
    (r : WebhookResponse) (n : Nat)
    (h_active : d.webhook.is_active = true)
    (h_router : send_webhook_using_scheme_method d.webhook.target_scheme outcome
      = RouterResult.delivered r)
    (h_failed : r.status = EventDeliveryStatus.failed) :
    send_webhook_request_async (some d) n outcome
      = if n < max_retries then
          { status_written := none, attempts_created := 1, attempt_response := some r,
            retry_countdown := some (retry_backoff * 2 ^ n), exception_escaped := false }
        else
          { status_written := some EventDeliveryStatus.failed, attempts_created := 1,
            attempt_response := some r, retry_countdown := none,
            exception_escaped := false } := by
  simp [send_webhook_request_async, h_active, h_router, h_failed]

/-- C1: at the fan-out input of the claim (two raw endpoints and one
subscription endpoint of a subscribable event type, whose query renders
a payload) trigger_webhooks_async creates FOUR EventDelivery rows, not
three: the raw branch passes the full webhook list to
create_event_delivery_list_for_webhooks, so the subscription endpoint
also receives a delivery referencing the shared payload.  Two payload
rows exist, and three deliveries (not two) reference the shared payload
with id 0. -/
theorem trigger_webhooks_async_extra_delivery :
    (trigger_webhooks_async "data" "ORDER_CREATED"
        [{ is_active := true, target_scheme := "https", secret_key := "w1",
           subscription_query := none },
         { is_active := true, target_scheme := "https", secret_key := "w2",
           subscription_query := none },
         { is_active := true, target_scheme := "https", secret_key := "w3",
           subscription_query := some "subscription query" }]
        (fun _ => true)
        (fun w => match w.subscription_query with
                  | some _ => some "rendered-payload"
                  | none => none)).2.length = 4
    ∧ (trigger_webhooks_async "data" "ORDER_CREATED"
        [{ is_active := true, target_scheme := "https", secret_key := "w1",
           subscription_query := none },
         { is_active := true, target_scheme := "https", secret_key := "w2",
           subscription_query := none },
         { is_active := true, target_scheme := "https", secret_key := "w3",
           subscription_query := some "subscription query" }]
        (fun _ => true)
        (fun w => match w.subscription_query with
                  | some _ => some "rendered-payload"
                  | none => none)).1.length = 2
    ∧ ((trigger_webhooks_async "data" "ORDER_CREATED"
        [{ is_active := true, target_scheme := "https", secret_key := "w1",
           subscription_query := none },
         { is_active := true, target_scheme := "https", secret_key := "w2",
           subscription_query := none },
         { is_active := true, target_scheme := "https", secret_key := "w3",
           subscription_query := some "subscription query" }]
        (fun _ => true)
        (fun w => match w.subscription_query with
                  | some _ => some "rendered-payload"
                  | none => none)).2.filter (fun del => del.payload_id = 0)).length = 3 := by
  decide

/-- C2 (amended): one invocation of the async task never reads the
stored status of the delivery it processes, so its observable effects
are identical for any prior status; in particular a terminal SUCCESS or
FAILED status gives the re-run no protection and is overwritten with
whatever the re-run concludes (last-write-wins). -/
theorem send_webhook_request_async_ignores_prior_status (s t : EventDeliveryStatus)
    (ev p : String) (w : Webhook) (retries : Nat) (outcome : AdapterOutcome) :
    send_webhook_request_async
        (some { status := s, event_type := ev, payload := p, webhook := w }) retries outcome
      = send_webhook_request_async
        (some { status := t, event_type := ev, payload := p, webhook := w }) retries outcome := rfl

/-- C2 counterexample: re-running the async task on a delivery whose
stored status is already terminal FAILED, with an active webhook and a
successful transport call, overwrites the terminal status with
SUCCESS - the invocation does not leave a terminal status unchanged. -/
theorem send_webhook_request_async_overwrites_terminal_status_cex :
    ({ status := EventDeliveryStatus.failed, event_type := "ORDER_CREATED", payload := "p",
       webhook := { is_active := true, target_scheme := "https", secret_key := "",
                    subscription_query := none } } : EventDelivery).status
      = EventDeliveryStatus.failed
    ∧ (send_webhook_request_async
        (some { status := EventDeliveryStatus.failed, event_type := "ORDER_CREATED",
                payload := "p",
                webhook := { is_active := true, target_scheme := "https", secret_key := "",
                             subscription_query := none } })
        0 (AdapterOutcome.ok { content := "ok" })).status_written
      = some EventDeliveryStatus.success := by decide

/-- C3 (amended): the HTTP adapter returns status SUCCESS exactly when
the response status code is below 400 (the ok predicate of the requests
library), and always captures the response body as content; every
response with code 400 or above therefore yields FAILED with the body
as content. -/
theorem send_webhook_using_http_success_iff_below_400
    (target_url message domain signature event_type : String) (r : HttpResponse) :
    ((send_webhook_using_http target_url message domain signature event_type r).status
        = EventDeliveryStatus.success ↔ r.status_code < 400)
    ∧ (send_webhook_using_http target_url message domain signature event_type r).content
        = r.text := by
  refine ⟨?_, rfl⟩
  by_cases h : r.status_code < 400 <;>
    simp [send_webhook_using_http, response_ok, h]

/-- C3 counterexample: a 304 response is not 2xx-class, yet the HTTP
adapter maps it to SUCCESS, because the requests ok predicate accepts
every status code below 400. -/
theorem send_webhook_using_http_not_2xx_success_cex :
    (send_webhook_using_http "https://example.com/hook" "m" "example.com" "sig" "ev"
        { status_code := 304, text := "not modified", headers := [],
          elapsed_seconds := 0 }).status = EventDeliveryStatus.success
    ∧ ¬ (200 ≤ 304 ∧ 304 < 300) := by decide

/-- C4 (amended): for each known scheme the router converts a raised
transport exception into a FAILED result carrying the exception text
exactly when the exception class is in that scheme's caught tuple -
RequestException for http and https, ClientError for awssqs,
MessageTooLargeError or RuntimeError for gcpubsub; an exception of any
other class propagates to the caller. -/
theorem send_webhook_using_scheme_method_catches_exactly_listed (e : ExcKind) (m : String) :
    (send_webhook_using_scheme_method "http" (AdapterOutcome.raised e m)
      = if e = ExcKind.requestException
        then RouterResult.delivered { content := m, status := EventDeliveryStatus.failed }
        else RouterResult.uncaught e m)
    ∧ (send_webhook_using_scheme_method "https" (AdapterOutcome.raised e m)
      = if e = ExcKind.requestException
        then RouterResult.delivered { content := m, status := EventDeliveryStatus.failed }
        else RouterResult.uncaught e m)
    ∧ (send_webhook_using_scheme_method "awssqs" (AdapterOutcome.raised e m)
      = if e = ExcKind.clientError
        then RouterResult.delivered { content := m, status := EventDeliveryStatus.failed }
        else RouterResult.uncaught e m)
    ∧ (send_webhook_using_scheme_method "gcpubsub" (AdapterOutcome.raised e m)
      = if e = ExcKind.messageTooLargeError ∨ e = ExcKind.runtimeError
        then RouterResult.delivered { content := m, status := EventDeliveryStatus.failed }
        else RouterResult.uncaught e m) := by
  cases e <;> exact ⟨rfl, rfl, rfl, rfl⟩

/-- C4 counterexample: http is a known scheme, yet a RuntimeError raised
inside its adapter is not converted to a FAILED result - it propagates
to the caller, because the http entry of the scheme matrix catches only
RequestException. -/
theorem send_webhook_using_scheme_method_uncaught_cex :
    (scheme_matrix_lookup (py_lower "http")).isSome = true
    ∧ send_webhook_using_scheme_method "http"
        (AdapterOutcome.raised ExcKind.runtimeError "boom")
      = RouterResult.uncaught ExcKind.runtimeError "boom" := by decide

/-- C5: when every transport call of a delivery fails (active webhook,
router returning a FAILED response each time), the full retry loop
creates exactly max_retries + 1 DeliveryAttempt rows, schedules the
retries with countdowns retry_backoff * 2 ^ n for attempt numbers
n = 0 .. max_retries - 1 (10, 20, 40, 80, 160 seconds), and finally
writes terminal FAILED; moreover the single invocation at attempt
number n below the budget schedules its retry with countdown
retry_backoff * 2 ^ n. -/
theorem send_webhook_request_async_retry_budget (d : EventDelivery)
    (outcome : AdapterOutcome) (r : WebhookResponse)
    (h_active : d.webhook.is_active = true)
    (h_router : send_webhook_using_scheme_method d.webhook.target_scheme outcome
      = RouterResult.delivered r)
    (h_failed : r.status = EventDeliveryStatus.failed) :
    drive d outcome (max_retries + 1) 0
      = (max_retries + 1,
         (List.range max_retries).map (fun n => retry_backoff * 2 ^ n),
         some EventDeliveryStatus.failed)
    ∧ ∀ n, n < max_retries →
        (send_webhook_request_async (some d) n outcome).retry_countdown
          = some (retry_backoff * 2 ^ n) := by
  have s0 := async_step_failed d outcome r 0 h_active h_router h_failed
  have s1 := async_step_failed d outcome r 1 h_active h_router h_failed
  have s2 := async_step_failed d outcome r 2 h_active h_router h_failed
  have s3 := async_step_failed d outcome r 3 h_active h_router h_failed
  have s4 := async_step_failed d outcome r 4 h_active h_router h_failed
  have s5 := async_step_failed d outcome r 5 h_active h_router h_failed
  rw [if_pos (by norm_num [max_retries])] at s0 s1 s2 s3 s4
  rw [if_neg (by norm_num [max_retries])] at s5
  constructor
  · show drive d outcome 6 0 = _
    simp [drive, s0, s1, s2, s3, s4, s5, max_retries, retry_backoff, List.range_succ]
  · intro n hn
    rw [async_step_failed d outcome r n h_active h_router h_failed, if_pos hn]

/-- Witness for C5: a delivery to an active https webhook whose
transport call raises RequestException on every attempt runs through
six attempts with countdowns 10, 20, 40, 80, 160 and ends FAILED. -/
theorem send_webhook_request_async_retry_budget_witness :
    drive
      { status := EventDeliveryStatus.pending, event_type := "ev", payload := "p",
        webhook := { is_active := true, target_scheme := "https", secret_key := "",
                     subscription_query := none } }
      (AdapterOutcome.raised ExcKind.requestException "connection refused")
      (max_retries + 1) 0
      = (max_retries + 1,
         (List.range max_retries).map (fun n => retry_backoff * 2 ^ n),
         some EventDeliveryStatus.failed) :=
  (send_webhook_request_async_retry_budget
    { status := EventDeliveryStatus.pending, event_type := "ev", payload := "p",
      webhook := { is_active := true, target_scheme := "https", secret_key := "",
                   subscription_query := none } }
    (AdapterOutcome.raised ExcKind.requestException "connection refused")
    { content := "connection refused", status := EventDeliveryStatus.failed }
    rfl (by decide) rfl).1

/-- C6: a target scheme whose lower-cased form is outside the supported
set makes the router raise the unknown-scheme ValueError (never a
result), and the async orchestrator turns that error into one synthetic
FAILED attempt carrying the error text, writes terminal FAILED on the
delivery, and schedules no retry. -/
theorem unknown_scheme_fails_fast (d : EventDelivery) (retries : Nat)
    (outcome : AdapterOutcome)
    (h_scheme : py_lower d.webhook.target_scheme
      ∉ (["http", "https", "awssqs", "gcpubsub"] : List String))
    (h_active : d.webhook.is_active = true) :
    send_webhook_using_scheme_method d.webhook.target_scheme outcome
      = RouterResult.valueError ("Unknown webhook scheme: " ++ d.webhook.target_scheme)
    ∧ send_webhook_request_async (some d) retries outcome
      = { status_written := some EventDeliveryStatus.failed, attempts_created := 1,
          attempt_response := some
            { content := "Unknown webhook scheme: " ++ d.webhook.target_scheme,
              status := EventDeliveryStatus.failed },
          retry_countdown := none, exception_escaped := false } := by
  have hl := scheme_matrix_lookup_eq_none _ h_scheme
  have hr : send_webhook_using_scheme_method d.webhook.target_scheme outcome
      = RouterResult.valueError ("Unknown webhook scheme: " ++ d.webhook.target_scheme) := by
    unfold send_webhook_using_scheme_method
    rw [hl]
  refine ⟨hr, ?_⟩
  simp [send_webhook_request_async, h_active, hr]

/-- Witness for C6: the scheme ftp is unsupported; dispatch raises the
ValueError and the async invocation records one synthetic FAILED
attempt, writes FAILED, and schedules no retry. -/
theorem unknown_scheme_fails_fast_witness :
    send_webhook_using_scheme_method "ftp" (AdapterOutcome.ok { content := "c" })
      = RouterResult.valueError ("Unknown webhook scheme: " ++ "ftp")
    ∧ send_webhook_request_async
        (some { status := EventDeliveryStatus.pending, event_type := "ev", payload := "p",
                webhook := { is_active := true, target_scheme := "ftp", secret_key := "",
                             subscription_query := none } })
        0 (AdapterOutcome.ok { content := "c" })
      = { status_written := some EventDeliveryStatus.failed, attempts_created := 1,
          attempt_response := some
            { content := "Unknown webhook scheme: " ++ "ftp",
              status := EventDeliveryStatus.failed },
          retry_countdown := none, exception_escaped := false } :=
  unknown_scheme_fails_fast
    { status := EventDeliveryStatus.pending, event_type := "ev", payload := "p",
      webhook := { is_active := true, target_scheme := "ftp", secret_key := "",
                   subscription_query := none } }
    0 (AdapterOutcome.ok { content := "c" }) (by decide) rfl

/-- C7: on the sync path over http or https, the caller receives the
parsed JSON document and the delivery is marked SUCCESS exactly when
the remote response is successful (ok, status code below 400) and its
body parses as JSON; a non-successful response or a body that fails to
parse leaves the delivery FAILED and returns nothing. -/
theorem send_webhook_request_sync_json_result (sch : String) (r : HttpResponse)
    (parsed : Option String)
    (h : py_lower sch ∈ (["http", "https"] : List String)) :
    ((response_ok r = true ∧ parsed.isSome = true) →
      (send_webhook_request_sync sch (HttpOutcome.response r parsed)).status_written
          = some EventDeliveryStatus.success
        ∧ (send_webhook_request_sync sch (HttpOutcome.response r parsed)).returned = parsed)
    ∧ ((response_ok r = false ∨ parsed = none) →
      (send_webhook_request_sync sch (HttpOutcome.response r parsed)).status_written
          = some EventDeliveryStatus.failed
        ∧ (send_webhook_request_sync sch (HttpOutcome.response r parsed)).returned = none) := by
  unfold send_webhook_request_sync
  rw [if_neg (not_not_intro h)]
  constructor
  · rintro ⟨hok, hsome⟩
    cases parsed with
    | none => simp at hsome
    | some v => simp [hok]
  · rintro (hok | hnone)
    · cases parsed <;> simp [hok]
    · subst hnone
      simp

/-- Witness for C7: a 200 response with a JSON body yields SUCCESS and
returns the parsed document; a 500 response leaves the delivery FAILED
and returns nothing. -/
theorem send_webhook_request_sync_json_result_witness :
    ((send_webhook_request_sync "http"
        (HttpOutcome.response
          { status_code := 200, text := "\x7b\"ok\": true\x7d", headers := [],
            elapsed_seconds := 0 }
          (some "\x7b\"ok\": true\x7d"))).status_written
        = some EventDeliveryStatus.success
      ∧ (send_webhook_request_sync "http"
          (HttpOutcome.response
            { status_code := 200, text := "\x7b\"ok\": true\x7d", headers := [],
              elapsed_seconds := 0 }
            (some "\x7b\"ok\": true\x7d"))).returned = some "\x7b\"ok\": true\x7d")
    ∧ ((send_webhook_request_sync "http"
        (HttpOutcome.response
          { status_code := 500, text := "error", headers := [], elapsed_seconds := 0 }
          (some "error"))).status_written = some EventDeliveryStatus.failed
      ∧ (send_webhook_request_sync "http"
          (HttpOutcome.response
            { status_code := 500, text := "error", headers := [], elapsed_seconds := 0 }
            (some "error"))).returned = none) :=
  ⟨(send_webhook_request_sync_json_result "http"
      { status_code := 200, text := "\x7b\"ok\": true\x7d", headers := [], elapsed_seconds := 0 }
      (some "\x7b\"ok\": true\x7d") (by decide)).1 (by decide),
   (send_webhook_request_sync_json_result "http"
      { status_code := 500, text := "error", headers := [], elapsed_seconds := 0 }
      (some "error") (by decide)).2 (by decide)⟩

/-- C8: an async invocation on a delivery whose webhook is inactive
writes terminal FAILED and terminates at once: no attempt row is
created, no attempt result is recorded, and no retry is scheduled. -/
theorem send_webhook_request_async_inactive_webhook (d : EventDelivery)
    (retries : Nat) (outcome : AdapterOutcome)
    (h : d.webhook.is_active = false) :
    send_webhook_request_async (some d) retries outcome
      = { status_written := some EventDeliveryStatus.failed, attempts_created := 0,
          attempt_response := none, retry_countdown := none,
          exception_escaped := false } := by
  simp [send_webhook_request_async, h]

/-- Witness for C8: a concrete inactive webhook produces zero attempts
and an immediate terminal FAILED delivery. -/
theorem send_webhook_request_async_inactive_webhook_witness :
    send_webhook_request_async
      (some { status := EventDeliveryStatus.pending, event_type := "ev", payload := "p",
              webhook := { is_active := false, target_scheme := "https", secret_key := "",
                           subscription_query := none } })
      0 (AdapterOutcome.ok { content := "c" })
      = { status_written := some EventDeliveryStatus.failed, attempts_created := 0,
          attempt_response := none, retry_countdown := none,
          exception_escaped := false } :=
  send_webhook_request_async_inactive_webhook
    { status := EventDeliveryStatus.pending, event_type := "ev", payload := "p",
      webhook := { is_active := false, target_scheme := "https", secret_key := "",
                   subscription_query := none } }
    0 (AdapterOutcome.ok { content := "c" }) rfl

/-- Helper: the region of a four-label hostname. -/
theorem sqs_region_four_labels (p0 p1 p2 p3 : String) :
    sqs_region [p0, p1, p2, p3] = if p0 = "sqs" then p1 else "us-east-1" := rfl

/-- Helper: a hostname that does not split into exactly four labels
gets the default region. -/
theorem sqs_region_default (l : List String) (h : l.length ≠ 4) :
    sqs_region l = "us-east-1" := by
  unfold sqs_region
  split
  · next p0 p1 p2 p3 => simp at h
  · rfl

/-- C9: the SQS send request carries MessageGroupId equal to the
current domain exactly when the target URL path ends in .fifo (and no
MessageGroupId otherwise); the region is the second label of a
hostname of the four-label sqs.<region>.<x>.<y> form, and defaults to
us-east-1 for every other hostname (four labels not headed by sqs, or
any other label count). -/
theorem send_webhook_using_aws_sqs_fifo_and_region (parts : ParsedUrl)
    (message domain signature event_type : String) :
    (py_endswith parts.path ".fifo" = true →
      (send_webhook_using_aws_sqs parts message domain signature event_type).message_group_id
        = some domain)
    ∧ (py_endswith parts.path ".fifo" = false →
      (send_webhook_using_aws_sqs parts message domain signature event_type).message_group_id
        = none)
    ∧ (∀ r x y, py_split parts.hostname '.' = ["sqs", r, x, y] →
      (send_webhook_using_aws_sqs parts message domain signature event_type).region_name = r)
    ∧ (∀ p0 p1 p2 p3, py_split parts.hostname '.' = [p0, p1, p2, p3] → p0 ≠ "sqs" →
      (send_webhook_using_aws_sqs parts message domain signature event_type).region_name
        = "us-east-1")
    ∧ ((py_split parts.hostname '.').length ≠ 4 →
      (send_webhook_using_aws_sqs parts message domain signature event_type).region_name
        = "us-east-1") := by
  refine ⟨?_, ?_, ?_, ?_, ?_⟩
  · intro hf
    simp [send_webhook_using_aws_sqs, hf]
  · intro hf
    simp [send_webhook_using_aws_sqs, hf]
  · intro r x y hsp
    simp [send_webhook_using_aws_sqs, hsp, sqs_region]
  · intro p0 p1 p2 p3 hsp hne
    simp [send_webhook_using_aws_sqs, hsp, sqs_region, hne]
  · intro hlen
    simp [send_webhook_using_aws_sqs, sqs_region_default _ hlen]

/-- Witness for C9: the FIFO target of the spec example,
awssqs://k:s@sqs.us-west-2.amazonaws.com/123/q.fifo, yields a send
request with region us-west-2 and MessageGroupId equal to the domain. -/
theorem send_webhook_using_aws_sqs_fifo_and_region_witness :
    (send_webhook_using_aws_sqs
        { scheme := "awssqs", username := "k", password := "s",
          hostname := "sqs.us-west-2.amazonaws.com", path := "/123/q.fifo" }
        "m" "example.com" "sig" "ev").region_name = "us-west-2"
    ∧ (send_webhook_using_aws_sqs
        { scheme := "awssqs", username := "k", password := "s",
          hostname := "sqs.us-west-2.amazonaws.com", path := "/123/q.fifo" }
        "m" "example.com" "sig" "ev").message_group_id = some "example.com" :=
  ⟨(send_webhook_using_aws_sqs_fifo_and_region
      { scheme := "awssqs", username := "k", password := "s",
        hostname := "sqs.us-west-2.amazonaws.com", path := "/123/q.fifo" }
      "m" "example.com" "sig" "ev").2.2.1 "us-west-2" "amazonaws" "com" (by decide),
   (send_webhook_using_aws_sqs_fifo_and_region
      { scheme := "awssqs", username := "k", password := "s",
        hostname := "sqs.us-west-2.amazonaws.com", path := "/123/q.fifo" }
      "m" "example.com" "sig" "ev").1 (by decide)⟩

/-- C10: a sync delivery whose webhook scheme (lower-cased) is neither
http nor https writes FAILED on the delivery, raises the
unknown-scheme ValueError, creates no DeliveryAttempt row, and returns
nothing. -/
theorem send_webhook_request_sync_unknown_scheme (sch : String) (outcome : HttpOutcome)
    (h : py_lower sch ∉ (["http", "https"] : List String)) :
    send_webhook_request_sync sch outcome
      = { status_written := some EventDeliveryStatus.failed, attempts_created := 0,
          returned := none, raised_value_error := true } := by
  simp [send_webhook_request_sync, h]

/-- Witness for C10: a sync delivery to an awssqs target writes FAILED,
raises ValueError and creates no attempt. -/
theorem send_webhook_request_sync_unknown_scheme_witness :
    send_webhook_request_sync "awssqs"
        (HttpOutcome.response
          { status_code := 200, text := "b", headers := [], elapsed_seconds := 0 }
          (some "b"))
      = { status_written := some EventDeliveryStatus.failed, attempts_created := 0,
          returned := none, raised_value_error := true } :=
  send_webhook_request_sync_unknown_scheme "awssqs"
    (HttpOutcome.response
      { status_code := 200, text := "b", headers := [], elapsed_seconds := 0 }
      (some "b")) (by decide)
